import Mathlib

/-!
Verification development for the IoT connector Lambda
(`src/app/src/lambda_handler.py`).

The single handler classifies an inbound event by shape and routes it to
one of three paths: the IoT-Core ingest path (`topic`/`payload` present),
the TwinMaker dataWriter persist path (`entries` present), and the
TwinMaker dataReader query path (`selectedProperties` or
`propertyReferences` present).  The embedding below translates the
handler and its two store writers into pure Lean functions.  External
effects (DynamoDB `put_item`, S3 `put_object`, the TwinMaker RPC, wall
clock, ISO-8601 parsing) are threaded through an explicit environment
`Env`; the writes the handler performs are collected as a list of
`WriteOp` values in the order the code issues them.
-/

namespace IotLambda

/-! ## Lexicographic order on timestamps

DynamoDB orders the rows of one partition by the sort key (here the
ISO-8601 `Timestamp` string) lexicographically; `ScanIndexForward=False`
returns them in descending order.  We model the sort-key order as the
usual lexicographic order on the underlying character lists, defined by
structural recursion so that it evaluates inside the kernel. -/

def charListLe : List Char → List Char → Bool
  | [], _ => true
  | _ :: _, [] => false
  | a :: as, b :: bs =>
    if a < b then true
    else if b < a then false
    else charListLe as bs

def charListLt : List Char → List Char → Bool
  | [], [] => false
  | [], _ :: _ => true
  | _ :: _, [] => false
  | a :: as, b :: bs =>
    if a < b then true
    else if b < a then false
    else charListLt as bs

theorem charListLt_irrefl : ∀ as : List Char, charListLt as as = false := by
  intro as
  induction as with
  | nil => rfl
  | cons a as ih => simp [charListLt, ih]

theorem charListLt_asymm : ∀ {as bs : List Char},
    charListLt as bs = true → charListLt bs as = true → False := by
  intro as
  induction as with
  | nil =>
    intro bs h1 h2
    cases bs with
    | nil => simp [charListLt] at h1
    | cons b bs => simp [charListLt] at h2
  | cons a as ih =>
    intro bs h1 h2
    cases bs with
    | nil => simp [charListLt] at h1
    | cons b bs =>
      simp only [charListLt] at h1 h2
      rcases lt_trichotomy a b with hab | hab | hab
      · simp [hab, lt_asymm hab] at h2
      · subst hab
        simp [lt_irrefl] at h1 h2
        exact ih h1 h2
      · simp [hab, lt_asymm hab] at h1

theorem charListLt_trans : ∀ {as bs cs : List Char},
    charListLt as bs = true → charListLt bs cs = true → charListLt as cs = true := by
  intro as
  induction as with
  | nil =>
    intro bs cs h1 h2
    cases bs with
    | nil => simp [charListLt] at h1
    | cons b bs =>
      cases cs with
      | nil => simp [charListLt] at h2
      | cons c cs => simp [charListLt]
  | cons a as ih =>
    intro bs cs h1 h2
    cases bs with
    | nil => simp [charListLt] at h1
    | cons b bs =>
      cases cs with
      | nil => simp [charListLt] at h2
      | cons c cs =>
        simp only [charListLt] at h1 h2 ⊢
        rcases lt_trichotomy a b with hab | hab | hab
        · rcases lt_trichotomy b c with hbc | hbc | hbc
          · simp [lt_trans hab hbc]
          · subst hbc; simp [hab]
          · simp [hbc, lt_asymm hbc] at h2
        · subst hab
          rcases lt_trichotomy a c with hac | hac | hac
          · simp [hac]
          · subst hac
            simp [lt_irrefl] at h1 h2 ⊢
            exact ih h1 h2
          · simp [hac, lt_asymm hac] at h2
        · simp [hab, lt_asymm hab] at h1

theorem charListLe_total : ∀ as bs : List Char,
    charListLe as bs = true ∨ charListLe bs as = true := by
  intro as
  induction as with
  | nil => intro bs; left; rfl
  | cons a as ih =>
    intro bs
    cases bs with
    | nil => right; rfl
    | cons b bs =>
      simp only [charListLe]
      rcases lt_trichotomy a b with hab | hab | hab
      · left; simp [hab]
      · subst hab
        simp [lt_irrefl]
        exact ih bs
      · right; simp [hab]

theorem charListLe_trans : ∀ {as bs cs : List Char},
    charListLe as bs = true → charListLe bs cs = true → charListLe as cs = true := by
  intro as
  induction as with
  | nil => intro bs cs _ _; rfl
  | cons a as ih =>
    intro bs cs h1 h2
    cases bs with
    | nil => simp [charListLe] at h1
    | cons b bs =>
      cases cs with
      | nil => simp [charListLe] at h2
      | cons c cs =>
        simp only [charListLe] at h1 h2 ⊢
        rcases lt_trichotomy a b with hab | hab | hab
        · rcases lt_trichotomy b c with hbc | hbc | hbc
          · simp [lt_trans hab hbc]
          · subst hbc; simp [hab]
          · simp [hbc, lt_asymm hbc] at h2
        · subst hab
          rcases lt_trichotomy a c with hac | hac | hac
          · simp [hac]
          · subst hac
            simp [lt_irrefl] at h1 h2 ⊢
            exact ih h1 h2
          · simp [hac, lt_asymm hac] at h2
        · simp [hab, lt_asymm hab] at h1

theorem charListLe_lt_or_eq : ∀ {as bs : List Char},
    charListLe as bs = true → charListLt as bs = true ∨ as = bs := by
  intro as
  induction as with
  | nil =>
    intro bs _
    cases bs with
    | nil => right; rfl
    | cons b bs => left; rfl
  | cons a as ih =>
    intro bs h
    cases bs with
    | nil => simp [charListLe] at h
    | cons b bs =>
      simp only [charListLe] at h
      simp only [charListLt]
      rcases lt_trichotomy a b with hab | hab | hab
      · left; simp [hab]
      · subst hab
        simp [lt_irrefl] at h ⊢
        rcases ih h with h2 | h2
        · left; exact h2
        · right; exact h2
      · simp [hab, lt_asymm hab] at h

/-! ## Data model

Shapes taken from the request payloads the handler reads
(`lambda_handler.py`).  `EntityPropertyReference`, `TimedValue` and
`PersistEntry` mirror the TwinMaker dataWriter callback
(`entries[*].entityPropertyReference`, `entries[*].propertyValues[*]`);
`StoreRecord` mirrors the DynamoDB item written by `write_to_dynamo`
(`SensorID`, `Timestamp`, `Valor`). -/

structure EntityPropertyReference where
  entityId : String
  componentName : Option String
  propertyName : String
deriving DecidableEq

structure TimedValue where
  booleanValue : Bool
  time : String
deriving DecidableEq

structure PersistEntry where
  entityPropertyReference : EntityPropertyReference
  propertyValues : List TimedValue
  entryId : Option String
deriving DecidableEq

structure CanonicalEvent where
  entityId : String
  propertyName : String
  timestampIso : String
  value : Bool
deriving DecidableEq

structure StoreRecord where
  SensorID : String
  Timestamp : String
  Valor : Bool
deriving DecidableEq

/-- Result of Python's `datetime.fromisoformat` applied to a timestamp
string: the calendar fields and the epoch seconds used by `write_to_s3`
(`now_utc.year`, `now_utc.month`, `now_utc.day`,
`int(now_utc.timestamp())`). -/
structure DateParts where
  year : Nat
  month : Nat
  day : Nat
  epoch : Int
deriving DecidableEq

/-- One externally visible store write, in the order the code issues
them: a DynamoDB `put_item` or an S3 `put_object`. -/
inductive WriteOp where
  | dynamo (record : StoreRecord)
  | s3Object (key : String) (body : String)
deriving DecidableEq

structure ErrorInfo where
  code : String
  message : String
deriving DecidableEq

structure ErrorEntry where
  entryId : String
  error : ErrorInfo
deriving DecidableEq

structure PersistResponse where
  errorEntries : List ErrorEntry
deriving DecidableEq

structure TimeValue where
  time : String
  booleanValue : Bool
deriving DecidableEq

structure PropertyValuesEntry where
  entityPropertyReference : EntityPropertyReference
  values : List TimeValue
deriving DecidableEq

structure ReadResponse where
  propertyValues : List PropertyValuesEntry
  nextToken : Option String
deriving DecidableEq

/-- The `payload` object of an IoT-Core ingest message; the code reads
`event['payload']['value']` and coerces it with `bool(value)`.  We model
the value as a natural number whose Python truthiness is `≠ 0`. -/
structure IngestPayload where
  value : Nat
deriving DecidableEq

structure IngestResult where
  statusCode : Nat
  body : String
deriving DecidableEq

/-- The opaque inbound event: every field the handler probes with
`in` / indexing, each optional because the three request shapes carry
different subsets. -/
structure RequestEnvelope where
  topic : Option String
  payload : Option IngestPayload
  entries : Option (List PersistEntry)
  selectedProperties : Option (List String)
  propertyReferences : Option (List EntityPropertyReference)
  entityId : Option String
  componentName : Option String

/-- Environment of external effects: AWS clients, environment variables
and the wall clock, threaded explicitly.  A `some msg` in a failure
field models the corresponding client call raising an exception whose
`str(e)` is `msg`. -/
structure Env where
  entityIdVar : Option String
  componentNameVar : Option String
  nowIso : String
  twinmakerFails : PersistEntry → Option String
  dynamoFails : CanonicalEvent → Option String
  s3Fails : CanonicalEvent → Option String
  parseIso : String → Option DateParts
  table : List StoreRecord
  queryFails : String → Option String

/-! ## Write path (`write_to_dynamo`, `write_to_s3`, dataWriter loop) -/

/-- The DynamoDB item built by `write_to_dynamo` (line 39):
`{'SensorID': f"{entity_id}:{property_name}", 'Timestamp': timestamp_iso,
'Valor': value}`. -/
def dynamoRecord (entity_id property_name timestamp_iso : String) (value : Bool) :
    StoreRecord :=
  { SensorID := entity_id ++ ":" ++ property_name
    Timestamp := timestamp_iso
    Valor := value }

/-- Embedding of `write_to_dynamo`: one `put_item` attempt; on
`ClientError` the exception is re-raised and no write happens. -/
def write_to_dynamo (env : Env) (ev : CanonicalEvent) : List WriteOp × Option String :=
  match env.dynamoFails ev with
  | some msg => ([], some msg)
  | none =>
      ([WriteOp.dynamo (dynamoRecord ev.entityId ev.propertyName ev.timestampIso ev.value)],
       none)

/-- The S3 object key built by `write_to_s3` (line 60):
`f"dados-atuadores/{now_utc.year}/{now_utc.month}/{now_utc.day}/{property_name}-{int(now_utc.timestamp())}.json"`. -/
def s3Key (property_name : String) (d : DateParts) : String :=
  "dados-atuadores/" ++ toString d.year ++ "/" ++ toString d.month ++ "/" ++
    toString d.day ++ "/" ++ property_name ++ "-" ++ toString d.epoch ++ ".json"

/-- The S3 object body built by `write_to_s3` (line 65):
`json.dumps({"sensorId": f"{entity_id}:{property_name}", "timestamp":
timestamp_iso, "value": value})`, with Python's default separators and
lowercase booleans. -/
def s3Body (ev : CanonicalEvent) : String :=
  "\x7b\"sensorId\": \"" ++ ev.entityId ++ ":" ++ ev.propertyName ++
    "\", \"timestamp\": \"" ++ ev.timestampIso ++ "\", \"value\": " ++
    (if ev.value then "true" else "false") ++ "\x7d"

/-- Embedding of `write_to_s3`: parse the ISO timestamp (a `ValueError`
from `fromisoformat` propagates, the except block re-raises), then one
`put_object` attempt that may raise. -/
def write_to_s3 (env : Env) (ev : CanonicalEvent) : List WriteOp × Option String :=
  match env.parseIso ev.timestampIso with
  | none => ([], some ("Invalid isoformat string: " ++ ev.timestampIso))
  | some d =>
      match env.s3Fails ev with
      | some msg => ([], some msg)
      | none => ([WriteOp.s3Object (s3Key ev.propertyName d) (s3Body ev)], none)

/-- The CanonicalEvent the dataWriter loop body builds from an entry and
one of its timed values (lines 115-119 of the source). -/
def canonicalOfEntry (entry : PersistEntry) (tv : TimedValue) : CanonicalEvent :=
  { entityId := entry.entityPropertyReference.entityId
    propertyName := entry.entityPropertyReference.propertyName
    timestampIso := tv.time
    value := tv.booleanValue }

/-- One iteration of the dataWriter loop: the code reads
`entry['propertyValues'][0]` (an `IndexError` when the list is empty),
then calls `write_to_dynamo` and, if that returned, `write_to_s3`; the
first exception aborts the iteration.  Returns the writes that completed
and the exception message, if any. -/
def runEntry (env : Env) (entry : PersistEntry) : List WriteOp × Option String :=
  match entry.propertyValues with
  | [] => ([], some "list index out of range")
  | tv :: _ =>
      let ev := canonicalOfEntry entry tv
      match write_to_dynamo env ev with
      | (w1, some msg) => (w1, some msg)
      | (w1, none) =>
          match write_to_s3 env ev with
          | (w2, res) => (w1 ++ w2, res)

/-- The dataWriter `for entry in event['entries']` loop: entries run in
order inside one `try`, so the first exception aborts the remainder of
the batch. -/
def runEntries (env : Env) : List PersistEntry → List WriteOp × Option String
  | [] => ([], none)
  | e :: rest =>
      match runEntry env e with
      | (ws, some msg) => (ws, some msg)
      | (ws, none) =>
          match runEntries env rest with
          | (ws2, res) => (ws ++ ws2, res)

/-- The dataWriter path (Caminho 2, lines 110-127): run the batch; on
success return `{"errorEntries": []}`, on any exception return a single
error entry with the literal `entryId` `"error"`, code
`INTERNAL_FAILURE` and the formatted message. -/
def persist_flow (env : Env) (entries : List PersistEntry) :
    List WriteOp × PersistResponse :=
  match runEntries env entries with
  | (ws, none) => (ws, { errorEntries := [] })
  | (ws, some msg) =>
      (ws,
       { errorEntries :=
           [{ entryId := "error"
              error :=
                { code := "INTERNAL_FAILURE"
                  message := "Ocorreu um erro no conector Lambda: " ++ msg } }] })

/-- Number of leading entries of the batch whose two writes both
completed (the entries the loop finished before any exception). -/
def succCount (env : Env) : List PersistEntry → Nat
  | [] => 0
  | e :: rest =>
      match (runEntry env e).2 with
      | some _ => 0
      | none => 1 + succCount env rest

/-- Number of entries the loop examined: the whole batch when every
entry succeeds, otherwise the first failing entry and its
predecessors. -/
def examinedCount (env : Env) : List PersistEntry → Nat
  | [] => 0
  | e :: rest =>
      match (runEntry env e).2 with
      | some _ => 1
      | none => 1 + examinedCount env rest

/-! ## Read path (dataReader, Caminho 3, lines 133-182) -/

/-- The partition key the read loop queries (line 154):
`sensor_id = f"{entity_id}:{property_name}"`. -/
def readSensorKey (prop_ref : EntityPropertyReference) : String :=
  prop_ref.entityId ++ ":" ++ prop_ref.propertyName

/-- Descending sort-key order on store rows (newest first), the order
DynamoDB returns items under `ScanIndexForward=False`. -/
def recDescLe (x y : StoreRecord) : Prop :=
  charListLe y.Timestamp.data x.Timestamp.data = true

instance : DecidableRel recDescLe := fun x y =>
  inferInstanceAs (Decidable (charListLe y.Timestamp.data x.Timestamp.data = true))

instance : IsTotal StoreRecord recDescLe :=
  ⟨fun x y => charListLe_total y.Timestamp.data x.Timestamp.data⟩

instance : IsTrans StoreRecord recDescLe :=
  ⟨fun _ _ _ h1 h2 => charListLe_trans h2 h1⟩

/-- Embedding of the DynamoDB `table.query` call (lines 157-161): the
rows of the partition `sensor_id`, in descending sort-key order, at most
`Limit=100` of them; a `ClientError` propagates as an exception. -/
def dynamoQueryDesc (env : Env) (sensor_id : String) :
    Except String (List StoreRecord) :=
  match env.queryFails sensor_id with
  | some msg => Except.error msg
  | none =>
      Except.ok
        ((List.insertionSort recDescLe
            (env.table.filter (fun r => r.SensorID == sensor_id))).take 100)

/-- Normalization of the two accepted read-selector shapes (lines
139-148): `propertyReferences` is used when present; otherwise one
reference per `selectedProperties` name is built from the request's
`entityId` and `componentName` (a missing key raises `KeyError`). -/
def normalizeSelectors (event : RequestEnvelope) :
    Except String (List EntityPropertyReference) :=
  match event.propertyReferences with
  | some refs => Except.ok refs
  | none =>
      match event.entityId with
      | none => Except.error "KeyError: entityId"
      | some entity_id =>
          match event.componentName with
          | none => Except.error "KeyError: componentName"
          | some component_name =>
              match event.selectedProperties with
              | none => Except.error "KeyError: selectedProperties"
              | some props =>
                  Except.ok
                    (props.map (fun prop_name =>
                      { entityId := entity_id
                        componentName := some component_name
                        propertyName := prop_name }))

/-- The per-reference body of the read loop (lines 151-175): query the
store newest-first, reverse to chronological order, and echo the
reference back next to its (time, value) pairs. -/
def queryOneRef (env : Env) (prop_ref : EntityPropertyReference) :
    Except String PropertyValuesEntry :=
  match dynamoQueryDesc env (readSensorKey prop_ref) with
  | Except.error msg => Except.error msg
  | Except.ok items =>
      Except.ok
        { entityPropertyReference := prop_ref
          values :=
            items.reverse.map (fun item =>
              { time := item.Timestamp, booleanValue := item.Valor }) }

/-- The read loop over all normalized references; it runs inside the
single dataReader `try`, so the first exception aborts the whole
response. -/
def queryRefs (env : Env) : List EntityPropertyReference →
    Except String (List PropertyValuesEntry)
  | [] => Except.ok []
  | r :: rs =>
      match queryOneRef env r with
      | Except.error msg => Except.error msg
      | Except.ok v =>
          match queryRefs env rs with
          | Except.error msg => Except.error msg
          | Except.ok vs => Except.ok (v :: vs)

/-- The dataReader path (Caminho 3): build the references, run the
queries, and wrap them as `{"propertyValues": ..., "nextToken": None}`;
any exception anywhere in the `try` is swallowed into the empty valid
response (lines 180-182). -/
def query_flow (env : Env) (event : RequestEnvelope) : ReadResponse :=
  match
    (match normalizeSelectors event with
     | Except.error msg => Except.error msg
     | Except.ok refs => queryRefs env refs) with
  | Except.ok vals => { propertyValues := vals, nextToken := none }
  | Except.error _ => { propertyValues := [], nextToken := none }

/-! ## Ingest path (Caminho 1, lines 86-108) -/

/-- Structural model of Python's `topic.split('/')`: accumulate the
current segment and cut at every slash. -/
def splitSlashAux : List Char → List Char → List String
  | [], acc => [String.mk acc.reverse]
  | c :: cs, acc =>
      if c = '/' then String.mk acc.reverse :: splitSlashAux cs []
      else splitSlashAux cs (c :: acc)

/-- `topic.split('/')[-1]` (line 92): the last slash-separated segment
of the MQTT topic. -/
def lastSegment (topic : String) : String :=
  (splitSlashAux topic.data []).getLastD ""

/-- The single dataWriter entry the ingest path forwards to
`batch_put_property_values` (lines 98-101), built from the configured
entity/component, the topic's last segment, the coerced boolean and the
current UTC time. -/
def ingestForwardEntry (entity_id component_name property_name : String)
    (valor_booleano : Bool) (timestamp_iso : String) : PersistEntry :=
  { entityPropertyReference :=
      { entityId := entity_id
        componentName := some component_name
        propertyName := property_name }
    propertyValues := [{ booleanValue := valor_booleano, time := timestamp_iso }]
    entryId := none }

/-- The ingest path: read the two environment variables (a missing one
raises `KeyError` inside the `try`), derive the property name and value,
forward one entry to TwinMaker, and report 200 on success or 500 with
the message on any exception.  The response bodies carry the
`json.dumps` quoting of the source. -/
def ingest_flow (env : Env) (topic : String) (payload : IngestPayload) : IngestResult :=
  match env.entityIdVar with
  | none => { statusCode := 500
              body := "\"Erro ao chamar o TwinMaker: KeyError: TWINMAKER_ENTITY_ID\"" }
  | some entity_id =>
      match env.componentNameVar with
      | none => { statusCode := 500
                  body := "\"Erro ao chamar o TwinMaker: KeyError: TWINMAKER_COMPONENT_NAME\"" }
      | some component_name =>
          let property_name := lastSegment topic
          let valor_booleano : Bool := payload.value != 0
          let entry := ingestForwardEntry entity_id component_name property_name
            valor_booleano env.nowIso
          match env.twinmakerFails entry with
          | some msg => { statusCode := 500
                          body := "\"Erro ao chamar o TwinMaker: " ++ msg ++ "\"" }
          | none => { statusCode := 200
                      body := "\"Chamada ao TwinMaker enviada com sucesso.\"" }

/-! ## Classifier and dispatcher -/

inductive RequestKind where
  | ingest
  | persist
  | query
  | unrecognized
deriving DecidableEq

/-- The structural classification implicit in the handler's `if`/`elif`
chain, in source order: `topic`+`payload` → ingest; else `entries` →
persist; else `selectedProperties` or `propertyReferences` → query;
else unrecognized. -/
def classify (event : RequestEnvelope) : RequestKind :=
  if event.topic.isSome && event.payload.isSome then RequestKind.ingest
  else if event.entries.isSome then RequestKind.persist
  else if event.selectedProperties.isSome || event.propertyReferences.isSome then
    RequestKind.query
  else RequestKind.unrecognized

inductive LambdaResponse where
  | ingestResult (r : IngestResult)
  | persistResult (r : PersistResponse)
  | readResult (r : ReadResponse)
deriving DecidableEq

def LambdaResponse.isIngestResponse : LambdaResponse → Bool
  | LambdaResponse.ingestResult _ => true
  | _ => false

/-- Embedding of `lambda_handler`: the same `if`/`elif` chain as the
source, dispatching to the three path functions; an unmatched event
returns the empty valid read response (Caminho 4). -/
def lambda_handler (env : Env) (event : RequestEnvelope) : LambdaResponse :=
  match event.topic, event.payload with
  | some topic, some payload =>
      LambdaResponse.ingestResult (ingest_flow env topic payload)
  | _, _ =>
      match event.entries with
      | some entries => LambdaResponse.persistResult (persist_flow env entries).2
      | none =>
          if event.selectedProperties.isSome || event.propertyReferences.isSome then
            LambdaResponse.readResult (query_flow env event)
          else
            LambdaResponse.readResult { propertyValues := [], nextToken := none }

/-! ## Concrete sample inputs for witnesses and counterexamples -/

/-- A fully healthy environment: both store clients succeed, the
TwinMaker RPC succeeds, and every timestamp parses. -/
def envBase : Env :=
  { entityIdVar := some "festoEntity"
    componentNameVar := some "festoComponent"
    nowIso := "2024-01-01T00:00:00+00:00"
    twinmakerFails := fun _ => none
    dynamoFails := fun _ => none
    s3Fails := fun _ => none
    parseIso := fun _ => some { year := 2024, month := 1, day := 1, epoch := 1704067200 }
    table := []
    queryFails := fun _ => none }

/-- An environment whose DynamoDB writes always raise `ClientError`. -/
def envDynamoDown : Env :=
  { envBase with dynamoFails := fun _ => some "ClientError: ServiceUnavailable" }

/-! ## Claim C1 -/

/-- The writes the dataWriter loop issues for one entry: both stores,
for the first element of `propertyValues` only. -/
def firstValueWrites (pf : String → DateParts) (e : PersistEntry) : List WriteOp :=
  match e.propertyValues with
  | [] => []
  | tv :: _ =>
      [WriteOp.dynamo
         (dynamoRecord e.entityPropertyReference.entityId
           e.entityPropertyReference.propertyName tv.time tv.booleanValue),
       WriteOp.s3Object
         (s3Key e.entityPropertyReference.propertyName (pf tv.time))
         (s3Body (canonicalOfEntry e tv))]

theorem runEntry_first_value (env : Env) (pf : String → DateParts) (e : PersistEntry)
    (tv : TimedValue) (rest : List TimedValue)
    (hd : ∀ ev, env.dynamoFails ev = none)
    (hs : ∀ ev, env.s3Fails ev = none)
    (hp : ∀ s, env.parseIso s = some (pf s))
    (hv : e.propertyValues = tv :: rest) :
    runEntry env e = (firstValueWrites pf e, none) := by
  simp [runEntry, hv, write_to_dynamo, write_to_s3, hd, hs, hp, firstValueWrites,
    canonicalOfEntry]

theorem runEntries_first_values (env : Env) (pf : String → DateParts) :
    ∀ entries : List PersistEntry,
      (∀ ev, env.dynamoFails ev = none) →
      (∀ ev, env.s3Fails ev = none) →
      (∀ s, env.parseIso s = some (pf s)) →
      (∀ e ∈ entries, e.propertyValues ≠ []) →
      runEntries env entries = (entries.flatMap (firstValueWrites pf), none) := by
  intro entries hd hs hp
  induction entries with
  | nil => intro _; simp [runEntries]
  | cons x xs ih =>
    intro hne
    have hx : x.propertyValues ≠ [] := hne x (List.mem_cons_self x xs)
    rcases hv : x.propertyValues with _ | ⟨tv, rest⟩
    · exact absurd hv hx
    · have h1 := runEntry_first_value env pf x tv rest hd hs hp hv
      have h2 := ih (fun e he => hne e (List.mem_cons_of_mem x he))
      simp [runEntries, h1, h2]

/-- Claim C1, corrected.  The claim says every (propertyReference,
timedValue) pair of the batch gets both store writes; the code reads
only `entry['propertyValues'][0]`.  Amended statement: in a healthy
environment a batch whose entries all carry at least one timed value
succeeds, and the writes issued are exactly both store writes for the
FIRST timed value of each entry, in batch order; later elements of
`propertyValues` are ignored. -/
theorem C1_first_value_only (env : Env) (pf : String → DateParts)
    (entries : List PersistEntry)
    (hd : ∀ ev, env.dynamoFails ev = none)
    (hs : ∀ ev, env.s3Fails ev = none)
    (hp : ∀ s, env.parseIso s = some (pf s))
    (hne : ∀ e ∈ entries, e.propertyValues ≠ []) :
    (persist_flow env entries).2.errorEntries = [] ∧
    (persist_flow env entries).1 = entries.flatMap (firstValueWrites pf) := by
  have hrun := runEntries_first_values env pf entries hd hs hp hne
  simp [persist_flow, hrun]

def entryC1 : PersistEntry :=
  { entityPropertyReference :=
      { entityId := "e1", componentName := none, propertyName := "p1" }
    propertyValues :=
      [{ booleanValue := true, time := "2024-01-01T00:00:00+00:00" },
       { booleanValue := false, time := "2024-01-02T00:00:00+00:00" }]
    entryId := some "entry-1" }

/-- Claim C1, counterexample to the claim as stated: a successful batch
with one entry carrying two timed values issues only two store writes
(for the first value); no write at all is issued for the second
(propertyReference, timedValue) pair. -/
theorem C1_counterexample :
    (persist_flow envBase [entryC1]).2.errorEntries = [] ∧
    (persist_flow envBase [entryC1]).1.length = 2 ∧
    WriteOp.dynamo (dynamoRecord "e1" "p1" "2024-01-02T00:00:00+00:00" false)
      ∉ (persist_flow envBase [entryC1]).1 := by
  decide

/-- Claim C1, witness for the amended theorem at a concrete input. -/
theorem C1_witness :
    (persist_flow envBase [entryC1]).2.errorEntries = [] ∧
    (persist_flow envBase [entryC1]).1 =
      [entryC1].flatMap
        (firstValueWrites (fun _ => { year := 2024, month := 1, day := 1, epoch := 1704067200 })) :=
  C1_first_value_only envBase
    (fun _ => { year := 2024, month := 1, day := 1, epoch := 1704067200 }) [entryC1]
    (fun _ => rfl) (fun _ => rfl) (fun _ => rfl) (by decide)

/-! ## Claim C2 -/

/-- Number of error entries an exception outcome contributes to the
response (the code reports at most one). -/
def errCountOf : Option String → Nat
  | none => 0
  | some _ => 1

theorem runEntries_counts (env : Env) : ∀ entries : List PersistEntry,
    errCountOf (runEntries env entries).2 + succCount env entries
      = examinedCount env entries ∧
    examinedCount env entries ≤ entries.length ∧
    ((runEntries env entries).2 = none → examinedCount env entries = entries.length) := by
  intro entries
  induction entries with
  | nil => exact ⟨rfl, Nat.le_refl 0, fun _ => rfl⟩
  | cons x xs ih =>
    rcases hrx : runEntry env x with ⟨wx, errx⟩
    cases errx with
    | some msg =>
        refine ⟨?_, ?_, ?_⟩
        · simp [runEntries, succCount, examinedCount, hrx, errCountOf]
        · simp only [examinedCount, hrx]
          exact Nat.succ_le_succ (Nat.zero_le xs.length)
        · intro hnone
          rw [show (runEntries env (x :: xs)).2 = some msg by simp [runEntries, hrx]] at hnone
          exact absurd hnone (by simp)
    | none =>
        obtain ⟨ih1, ih2, ih3⟩ := ih
        refine ⟨?_, ?_, ?_⟩
        · simp only [succCount, examinedCount, hrx]
          rw [show (runEntries env (x :: xs)).2 = (runEntries env xs).2 by
            simp [runEntries, hrx]]
          omega
        · simp only [examinedCount, hrx, List.length_cons]
          omega
        · intro hnone
          rw [show (runEntries env (x :: xs)).2 = (runEntries env xs).2 by
            simp [runEntries, hrx]] at hnone
          simp only [examinedCount, hrx, List.length_cons]
          rw [ih3 hnone]
          omega

/-- Claim C2, corrected.  The claim says errorEntries count plus the
count of successfully written entries always equals the batch size; the
code stops at the first exception and reports a single error entry, so
entries after the failure are skipped silently.  Amended statement: the
errorEntries count plus the successful-entry count equals the number of
entries the loop examined; that number equals the batch size exactly
when no entry fails (then errorEntries is empty), and is otherwise the
first failing entry and its predecessors. -/
theorem C2_counts_examined (env : Env) (entries : List PersistEntry) :
    (persist_flow env entries).2.errorEntries.length + succCount env entries
      = examinedCount env entries ∧
    examinedCount env entries ≤ entries.length ∧
    ((persist_flow env entries).2.errorEntries = [] →
       examinedCount env entries = entries.length) := by
  obtain ⟨h1, h2, h3⟩ := runEntries_counts env entries
  rcases hr : runEntries env entries with ⟨ws, err⟩
  cases err with
  | none =>
      refine ⟨?_, h2, fun _ => ?_⟩
      · rw [hr] at h1
        simpa [persist_flow, hr, errCountOf] using h1
      · exact h3 (by rw [hr])
  | some msg =>
      refine ⟨?_, h2, fun hempty => ?_⟩
      · rw [hr] at h1
        simpa [persist_flow, hr, errCountOf] using h1
      · rw [show (persist_flow env entries).2.errorEntries
              = [{ entryId := "error"
                   error := { code := "INTERNAL_FAILURE"
                              message := "Ocorreu um erro no conector Lambda: " ++ msg } }] by
            simp [persist_flow, hr]] at hempty
        exact absurd hempty (by simp)

def entryC2a : PersistEntry :=
  { entityPropertyReference :=
      { entityId := "e2", componentName := none, propertyName := "pA" }
    propertyValues := [{ booleanValue := true, time := "2024-02-01T00:00:00+00:00" }]
    entryId := some "c2-a" }

def entryC2b : PersistEntry :=
  { entityPropertyReference :=
      { entityId := "e2", componentName := none, propertyName := "pB" }
    propertyValues := [{ booleanValue := false, time := "2024-02-01T00:00:01+00:00" }]
    entryId := some "c2-b" }

/-- Claim C2, counterexample to the claim as stated: with the keyed
store down, a two-entry batch yields one error entry and zero
successfully written entries, and 1 + 0 is not the total entry
count 2. -/
theorem C2_counterexample :
    ([entryC2a, entryC2b] : List PersistEntry).length = 2 ∧
    (persist_flow envDynamoDown [entryC2a, entryC2b]).2.errorEntries.length
        + succCount envDynamoDown [entryC2a, entryC2b] ≠ 2 := by
  decide

/-- Claim C2, witness for the amended theorem at a concrete input: a
fully successful two-entry batch, where every entry is examined. -/
theorem C2_witness :
    (persist_flow envBase [entryC2a, entryC2b]).2.errorEntries.length
        + succCount envBase [entryC2a, entryC2b]
      = examinedCount envBase [entryC2a, entryC2b] ∧
    examinedCount envBase [entryC2a, entryC2b]
      = ([entryC2a, entryC2b] : List PersistEntry).length :=
  ⟨(C2_counts_examined envBase [entryC2a, entryC2b]).1,
   (C2_counts_examined envBase [entryC2a, entryC2b]).2.2 (by decide)⟩

/-! ## Claim C3 -/

/-- Claim C3, corrected.  The claim says a failed entry is reported
under its own `entryId` when it supplies one; the code always reports
the literal fallback id `"error"`.  Amended statement: when no entry
fails the response is the empty error list; when any entry fails the
response carries exactly one error entry whose `entryId` is always the
fixed string `"error"` (the failing entry's own `entryId` is never
used), with code `INTERNAL_FAILURE` and the formatted message. -/
theorem C3_response_shape (env : Env) (entries : List PersistEntry) :
    ((runEntries env entries).2 = none →
       (persist_flow env entries).2 = { errorEntries := [] }) ∧
    (∀ msg, (runEntries env entries).2 = some msg →
       (persist_flow env entries).2 =
         { errorEntries :=
             [{ entryId := "error"
                error := { code := "INTERNAL_FAILURE"
                           message := "Ocorreu um erro no conector Lambda: " ++ msg } }] }) := by
  rcases hr : runEntries env entries with ⟨ws, err⟩
  cases err with
  | none =>
      refine ⟨fun _ => ?_, fun msg hsome => absurd hsome (by simp)⟩
      simp [persist_flow, hr]
  | some m =>
      refine ⟨fun hnone => absurd hnone (by simp), fun msg hsome => ?_⟩
      simp only [Option.some.injEq] at hsome
      subst hsome
      simp [persist_flow, hr]

def entryC3 : PersistEntry :=
  { entityPropertyReference :=
      { entityId := "e3", componentName := none, propertyName := "p3" }
    propertyValues := [{ booleanValue := true, time := "2024-03-01T00:00:00+00:00" }]
    entryId := some "entry-7" }

/-- Claim C3, counterexample to the claim as stated: a failing entry
that supplies `entryId` `"entry-7"` is reported with the fixed id
`"error"`, not with its own id. -/
theorem C3_counterexample :
    entryC3.entryId = some "entry-7" ∧
    (persist_flow envDynamoDown [entryC3]).2.errorEntries.map
        (fun ee => ee.entryId) = ["error"] ∧
    ("error" : String) ≠ "entry-7" := by
  decide

/-- Claim C3, witness for the amended theorem: the success case on an
empty batch and the failure case on a concrete failing batch. -/
theorem C3_witness :
    (persist_flow envBase ([] : List PersistEntry)).2 = { errorEntries := [] } ∧
    (persist_flow envDynamoDown [entryC3]).2 =
      { errorEntries :=
          [{ entryId := "error"
             error := { code := "INTERNAL_FAILURE"
                        message := "Ocorreu um erro no conector Lambda: ClientError: ServiceUnavailable" } }] } :=
  ⟨(C3_response_shape envBase []).1 (by decide),
   (C3_response_shape envDynamoDown [entryC3]).2 "ClientError: ServiceUnavailable" (by decide)⟩

/-! ## Claim C4 -/

/-- Claim C4, confirmed: an event that carries both the telemetry
fields (`topic` and `payload`) and the write-batch field (`entries`) is
classified `Ingest` and never `Persist` — the first branch of the
`if`/`elif` chain wins, and the handler dispatches to the ingest
path. -/
theorem C4_classifier_precedence (event : RequestEnvelope)
    (ht : event.topic.isSome = true)
    (hp : event.payload.isSome = true)
    (_he : event.entries.isSome = true) :
    classify event = RequestKind.ingest ∧
    classify event ≠ RequestKind.persist ∧
    ∀ env : Env, (lambda_handler env event).isIngestResponse = true := by
  obtain ⟨t, ht2⟩ := Option.isSome_iff_exists.mp ht
  obtain ⟨pl, hp2⟩ := Option.isSome_iff_exists.mp hp
  refine ⟨?_, ?_, ?_⟩
  · simp [classify, ht, hp]
  · simp [classify, ht, hp]
  · intro env
    simp [lambda_handler, ht2, hp2, LambdaResponse.isIngestResponse]

def entryC4 : PersistEntry :=
  { entityPropertyReference :=
      { entityId := "e4", componentName := none, propertyName := "p4" }
    propertyValues := [{ booleanValue := true, time := "2024-04-01T00:00:00+00:00" }]
    entryId := none }

def eventC4 : RequestEnvelope :=
  { topic := some "factory/line1/valveOpen"
    payload := some { value := 1 }
    entries := some [entryC4]
    selectedProperties := none
    propertyReferences := none
    entityId := none
    componentName := none }

/-- Claim C4, witness: a concrete event carrying `topic`, `payload` and
`entries` at once. -/
theorem C4_witness :
    classify eventC4 = RequestKind.ingest ∧
    classify eventC4 ≠ RequestKind.persist ∧
    (lambda_handler envBase eventC4).isIngestResponse = true := by
  have h := C4_classifier_precedence eventC4 (by decide) (by decide) (by decide)
  exact ⟨h.1, h.2.1, h.2.2 envBase⟩

/-! ## Claim C5 -/

theorem queryRefs_error_of_mem (env : Env) :
    ∀ (refs : List EntityPropertyReference) (r : EntityPropertyReference) (msg : String),
      r ∈ refs → env.queryFails (readSensorKey r) = some msg →
      ∃ msg2, queryRefs env refs = Except.error msg2 := by
  intro refs
  induction refs with
  | nil => intro r msg h; cases h
  | cons x xs ih =>
    intro r msg hmem hf
    cases hx : env.queryFails (readSensorKey x) with
    | some m =>
        exact ⟨m, by simp [queryRefs, queryOneRef, dynamoQueryDesc, hx]⟩
    | none =>
        have hrx : r ∈ xs := by
          rcases List.mem_cons.mp hmem with rfl | hmem2
          · rw [hf] at hx; exact absurd hx (by simp)
          · exact hmem2
        obtain ⟨m2, hm2⟩ := ih r msg hrx hf
        exact ⟨m2, by simp [queryRefs, queryOneRef, dynamoQueryDesc, hx, hm2]⟩

/-- Claim C5, confirmed: if any property reference of a read request
hits a store error, the whole dataReader call degrades to the empty
valid response `{"propertyValues": [], "nextToken": null}`; the
exception is swallowed, never propagated. -/
theorem C5_store_error_degrades (env : Env) (event : RequestEnvelope)
    (refs : List EntityPropertyReference) (r : EntityPropertyReference) (msg : String)
    (hn : normalizeSelectors event = Except.ok refs)
    (hr : r ∈ refs)
    (hf : env.queryFails (readSensorKey r) = some msg) :
    query_flow env event = { propertyValues := [], nextToken := none } := by
  obtain ⟨m2, hm2⟩ := queryRefs_error_of_mem env refs r msg hr hf
  simp [query_flow, hn, hm2]

def refC5 : EntityPropertyReference :=
  { entityId := "e5", componentName := some "c5", propertyName := "p5" }

def envC5 : Env :=
  { envBase with queryFails := fun _ => some "ClientError: ResourceNotFoundException" }

def eventC5 : RequestEnvelope :=
  { topic := none
    payload := none
    entries := none
    selectedProperties := none
    propertyReferences := some [refC5]
    entityId := none
    componentName := none }

/-- Claim C5, witness: a concrete read request against a store whose
query raises; the response is the empty valid one. -/
theorem C5_witness :
    query_flow envC5 eventC5 = { propertyValues := [], nextToken := none } :=
  C5_store_error_degrades envC5 eventC5 [refC5] refC5
    "ClientError: ResourceNotFoundException" rfl (List.mem_singleton.mpr rfl) rfl

/-! ## Claim C6 -/

/-- Strict descending timestamp order, or equality: an antisymmetric
strengthening of `recDescLe` used to pin the sorted result down
uniquely. -/
def recDescStrict (x y : StoreRecord) : Prop :=
  charListLt y.Timestamp.data x.Timestamp.data = true ∨ x = y

instance : IsAntisymm StoreRecord recDescStrict :=
  ⟨by
    intro a b h1 h2
    rcases h1 with h1 | h1
    · rcases h2 with h2 | h2
      · exact (charListLt_asymm h1 h2).elim
      · exact h2.symm
    · exact h1⟩

theorem insertionSort_desc_three (rows : List StoreRecord) (r1 r2 r3 : StoreRecord)
    (hperm : rows.Perm [r1, r2, r3])
    (h12 : charListLt r1.Timestamp.data r2.Timestamp.data = true)
    (h23 : charListLt r2.Timestamp.data r3.Timestamp.data = true) :
    List.insertionSort recDescLe rows = [r3, r2, r1] := by
  have h13 := charListLt_trans h12 h23
  have hsorted : List.Sorted recDescLe (List.insertionSort recDescLe rows) :=
    List.sorted_insertionSort recDescLe rows
  have hpermS : (List.insertionSort recDescLe rows).Perm [r1, r2, r3] :=
    (List.perm_insertionSort recDescLe rows).trans hperm
  have hmem : ∀ x ∈ List.insertionSort recDescLe rows, x = r1 ∨ x = r2 ∨ x = r3 := by
    intro x hx
    have hx2 := hpermS.mem_iff.mp hx
    simpa using hx2
  have hstrict : List.Sorted recDescStrict (List.insertionSort recDescLe rows) := by
    refine List.Pairwise.imp_of_mem ?_ hsorted
    intro a b ha hb hab
    rcases charListLe_lt_or_eq hab with hlt | heq
    · exact Or.inl hlt
    · refine Or.inr ?_
      rcases hmem a ha with rfl | rfl | rfl <;> rcases hmem b hb with rfl | rfl | rfl
      · rfl
      · rw [heq] at h12; simp [charListLt_irrefl] at h12
      · rw [heq] at h13; simp [charListLt_irrefl] at h13
      · rw [heq] at h12; simp [charListLt_irrefl] at h12
      · rfl
      · rw [heq] at h23; simp [charListLt_irrefl] at h23
      · rw [heq] at h13; simp [charListLt_irrefl] at h13
      · rw [heq] at h23; simp [charListLt_irrefl] at h23
      · rfl
  have htarget : List.Sorted recDescStrict [r3, r2, r1] := by
    refine List.Pairwise.cons ?_ (List.Pairwise.cons ?_ (List.pairwise_singleton _ _))
    · intro b hb
      rcases List.mem_cons.mp hb with rfl | hb2
      · exact Or.inl h23
      · rcases List.mem_singleton.mp hb2 with rfl
        exact Or.inl h13
    · intro b hb
      rcases List.mem_singleton.mp hb with rfl
      exact Or.inl h12
  have hpermT : (List.insertionSort recDescLe rows).Perm [r3, r2, r1] := by
    refine hpermS.trans ?_
    have hrev : ([r1, r2, r3] : List StoreRecord).reverse = [r3, r2, r1] := rfl
    calc ([r1, r2, r3] : List StoreRecord).Perm ([r1, r2, r3].reverse) :=
          (List.reverse_perm [r1, r2, r3]).symm
      _ = [r3, r2, r1] := hrev
  exact List.eq_of_perm_of_sorted hpermT hstrict htarget

/-- Claim C6, confirmed: for a SensorKey holding exactly three records
with strictly increasing (lexicographic) timestamps, in whatever write
order they sit in the table, the dataReader response lists their
(time, value) pairs oldest first — the store is queried newest-first
(`ScanIndexForward=False`) and the items reversed before inclusion. -/
theorem C6_query_ascending (env : Env) (prop_ref : EntityPropertyReference)
    (r1 r2 r3 : StoreRecord)
    (hq : env.queryFails (readSensorKey prop_ref) = none)
    (hrows : (env.table.filter
        (fun r => r.SensorID == readSensorKey prop_ref)).Perm [r1, r2, r3])
    (h12 : charListLt r1.Timestamp.data r2.Timestamp.data = true)
    (h23 : charListLt r2.Timestamp.data r3.Timestamp.data = true) :
    query_flow env
        { topic := none, payload := none, entries := none, selectedProperties := none,
          propertyReferences := some [prop_ref], entityId := none, componentName := none } =
      { propertyValues :=
          [{ entityPropertyReference := prop_ref
             values := [{ time := r1.Timestamp, booleanValue := r1.Valor },
                        { time := r2.Timestamp, booleanValue := r2.Valor },
                        { time := r3.Timestamp, booleanValue := r3.Valor }] }]
        nextToken := none } := by
  have hsort := insertionSort_desc_three _ r1 r2 r3 hrows h12 h23
  have htake : ([r3, r2, r1] : List StoreRecord).take 100 = [r3, r2, r1] :=
    List.take_of_length_le (by simp)
  simp [query_flow, normalizeSelectors, queryRefs, queryOneRef, dynamoQueryDesc,
    hq, hsort, htake]

def rC6a : StoreRecord :=
  { SensorID := "e6:p6", Timestamp := "2024-03-01T00:00:00+00:00", Valor := true }

def rC6b : StoreRecord :=
  { SensorID := "e6:p6", Timestamp := "2024-03-02T00:00:00+00:00", Valor := false }

def rC6c : StoreRecord :=
  { SensorID := "e6:p6", Timestamp := "2024-03-03T00:00:00+00:00", Valor := true }

def refC6 : EntityPropertyReference :=
  { entityId := "e6", componentName := some "c6", propertyName := "p6" }

/-- A table holding the three records out of chronological order (the
write order was T2, T3, T1). -/
def envC6 : Env := { envBase with table := [rC6b, rC6c, rC6a] }

/-- Claim C6, witness: the scrambled table above still yields the
ascending [T1, T2, T3] response. -/
theorem C6_witness :
    query_flow envC6
        { topic := none, payload := none, entries := none, selectedProperties := none,
          propertyReferences := some [refC6], entityId := none, componentName := none } =
      { propertyValues :=
          [{ entityPropertyReference := refC6
             values := [{ time := rC6a.Timestamp, booleanValue := rC6a.Valor },
                        { time := rC6b.Timestamp, booleanValue := rC6b.Valor },
                        { time := rC6c.Timestamp, booleanValue := rC6c.Valor }] }]
        nextToken := none } :=
  C6_query_ascending envC6 refC6 rC6a rC6b rC6c rfl (by decide) (by decide) (by decide)

/-! ## Claim C7 -/

/-- The archive key format exactly as the spec words it:
`"archive/{year}/{month}/{day}/{propertyName}-{epochSeconds}.json"`.
Stated only for comparison with the key the source actually builds
(`s3Key`). -/
def specArchiveKey (property_name : String) (d : DateParts) : String :=
  "archive/" ++ toString d.year ++ "/" ++ toString d.month ++ "/" ++
    toString d.day ++ "/" ++ property_name ++ "-" ++ toString d.epoch ++ ".json"

/-- Claim C7, counterexample to the claim as stated: the source key
starts with `"dados-atuadores/"`, not `"archive/"`. -/
theorem C7_counterexample :
    s3Key "valveOpen" { year := 2024, month := 5, day := 3, epoch := 1714700000 } ≠
      specArchiveKey "valveOpen" { year := 2024, month := 5, day := 3, epoch := 1714700000 } := by
  decide

/-- Claim C7, corrected.  The key prefix is `"dados-atuadores/"` rather
than the claimed `"archive/"`; the rest of the claim holds.  Amended
statement: every archive write emits exactly one object whose key is
`"dados-atuadores/{year}/{month}/{day}/{propertyName}-{epochSeconds}.json"`
and whose body is the JSON serialization `{sensorId, timestamp, value}`
of the event. -/
theorem C7_archive_key_and_body (env : Env) (ev : CanonicalEvent) (d : DateParts)
    (hp : env.parseIso ev.timestampIso = some d)
    (hs : env.s3Fails ev = none) :
    write_to_s3 env ev =
      ([WriteOp.s3Object
          ("dados-atuadores/" ++ toString d.year ++ "/" ++ toString d.month ++ "/" ++
            toString d.day ++ "/" ++ ev.propertyName ++ "-" ++ toString d.epoch ++ ".json")
          ("\x7b\"sensorId\": \"" ++ ev.entityId ++ ":" ++ ev.propertyName ++
            "\", \"timestamp\": \"" ++ ev.timestampIso ++ "\", \"value\": " ++
            (if ev.value then "true" else "false") ++ "\x7d")], none) := by
  simp [write_to_s3, hp, hs, s3Key, s3Body]

def evC7 : CanonicalEvent :=
  { entityId := "festoEntity", propertyName := "Avancado_1S2"
    timestampIso := "2024-01-01T00:00:00+00:00", value := true }

/-- Claim C7, witness for the amended theorem at a concrete event. -/
theorem C7_witness :
    write_to_s3 envBase evC7 =
      ([WriteOp.s3Object
          ("dados-atuadores/" ++ toString (2024 : Nat) ++ "/" ++ toString (1 : Nat) ++ "/" ++
            toString (1 : Nat) ++ "/" ++ evC7.propertyName ++ "-" ++
            toString (1704067200 : Int) ++ ".json")
          ("\x7b\"sensorId\": \"" ++ evC7.entityId ++ ":" ++ evC7.propertyName ++
            "\", \"timestamp\": \"" ++ evC7.timestampIso ++ "\", \"value\": " ++
            (if evC7.value then "true" else "false") ++ "\x7d")], none) :=
  C7_archive_key_and_body envBase evC7
    { year := 2024, month := 1, day := 1, epoch := 1704067200 } rfl rfl

/-! ## Claim C8 -/

/-- Claim C8, confirmed: the write path and the read path build the
same partition key `"{entityId}:{propertyName}"` (same separator, same
field order), so a query for a pair just written finds its row. -/
theorem C8_sensor_key_roundtrip (env : Env) (e c p ts : String) (v : Bool)
    (ht : env.table = [dynamoRecord e p ts v])
    (hq : env.queryFails
        (readSensorKey { entityId := e, componentName := some c, propertyName := p })
      = none) :
    (dynamoRecord e p ts v).SensorID
        = readSensorKey { entityId := e, componentName := some c, propertyName := p } ∧
    queryOneRef env { entityId := e, componentName := some c, propertyName := p } =
      Except.ok
        { entityPropertyReference :=
            { entityId := e, componentName := some c, propertyName := p }
          values := [{ time := ts, booleanValue := v }] } := by
  refine ⟨rfl, ?_⟩
  have htake : ([dynamoRecord e p ts v] : List StoreRecord).take 100
      = [dynamoRecord e p ts v] :=
    List.take_of_length_le (by simp)
  simp only [readSensorKey] at hq
  simp [queryOneRef, dynamoQueryDesc, hq, ht, dynamoRecord, readSensorKey,
    List.insertionSort, htake]

/-- Claim C8, witness at a concrete pair. -/
theorem C8_witness :
    (dynamoRecord "e8" "p8" "2024-05-01T00:00:00+00:00" true).SensorID
        = readSensorKey { entityId := "e8", componentName := some "c8", propertyName := "p8" } ∧
    queryOneRef
        { envBase with table := [dynamoRecord "e8" "p8" "2024-05-01T00:00:00+00:00" true] }
        { entityId := "e8", componentName := some "c8", propertyName := "p8" } =
      Except.ok
        { entityPropertyReference :=
            { entityId := "e8", componentName := some "c8", propertyName := "p8" }
          values := [{ time := "2024-05-01T00:00:00+00:00", booleanValue := true }] } :=
  C8_sensor_key_roundtrip
    { envBase with table := [dynamoRecord "e8" "p8" "2024-05-01T00:00:00+00:00" true] }
    "e8" "c8" "p8" "2024-05-01T00:00:00+00:00" true rfl rfl

/-! ## Claim C9 -/

/-- Claim C9, confirmed: when `propertyReferences` is present the read
path uses it and ignores the `selectedProperties` shape entirely; when
only the `selectedProperties` shape is present, one reference per
selected name is built, in list order, carrying the request's
`entityId` and `componentName`. -/
theorem C9_selector_precedence (event : RequestEnvelope)
    (refs : List EntityPropertyReference) (entity_id component_name : String)
    (props : List String) :
    (event.propertyReferences = some refs →
       normalizeSelectors event = Except.ok refs) ∧
    (event.propertyReferences = none → event.entityId = some entity_id →
     event.componentName = some component_name →
     event.selectedProperties = some props →
       normalizeSelectors event =
         Except.ok (props.map (fun prop_name =>
           { entityId := entity_id
             componentName := some component_name
             propertyName := prop_name }))) := by
  constructor
  · intro h
    simp [normalizeSelectors, h]
  · intro h1 h2 h3 h4
    simp [normalizeSelectors, h1, h2, h3, h4]

def refC9 : EntityPropertyReference :=
  { entityId := "e9", componentName := some "c9", propertyName := "p9" }

def eventC9both : RequestEnvelope :=
  { topic := none, payload := none, entries := none
    selectedProperties := some ["pA", "pB"]
    propertyReferences := some [refC9]
    entityId := some "e9", componentName := some "c9" }

def eventC9grafana : RequestEnvelope :=
  { topic := none, payload := none, entries := none
    selectedProperties := some ["pA", "pB"]
    propertyReferences := none
    entityId := some "e9", componentName := some "c9" }

/-- Claim C9, witness: a request carrying both selector shapes resolves
to its `propertyReferences` list, and the Grafana shape alone expands in
list order. -/
theorem C9_witness :
    normalizeSelectors eventC9both = Except.ok [refC9] ∧
    normalizeSelectors eventC9grafana =
      Except.ok
        [{ entityId := "e9", componentName := some "c9", propertyName := "pA" },
         { entityId := "e9", componentName := some "c9", propertyName := "pB" }] :=
  ⟨(C9_selector_precedence eventC9both [refC9] "e9" "c9" ["pA", "pB"]).1 rfl,
   (C9_selector_precedence eventC9grafana [] "e9" "c9" ["pA", "pB"]).2 rfl rfl rfl rfl⟩

/-! ## Claim C10 -/

theorem runEntries_fail_at (env : Env) :
    ∀ (pre : List PersistEntry) (e : PersistEntry) (post : List PersistEntry) (msg : String),
      (∀ x ∈ pre, (runEntry env x).2 = none) →
      (runEntry env e).2 = some msg →
      runEntries env (pre ++ e :: post)
        = (pre.flatMap (fun x => (runEntry env x).1) ++ (runEntry env e).1, some msg) := by
  intro pre
  induction pre with
  | nil =>
    intro e post msg _ he
    rcases hre : runEntry env e with ⟨ws, err⟩
    rw [hre] at he
    simp only at he
    subst he
    simp [runEntries, hre]
  | cons x xs ih =>
    intro e post msg hpre he
    rcases hrx : runEntry env x with ⟨wx, errx⟩
    have hx0 : (runEntry env x).2 = none := hpre x (List.mem_cons_self x xs)
    rw [hrx] at hx0
    simp only at hx0
    subst hx0
    have h2 := ih e post msg (fun y hy => hpre y (List.mem_cons_of_mem x hy)) he
    simp [runEntries, hrx, h2, List.flatMap_cons, List.append_assoc]

/-- Claim C10, confirmed: a failing Persist batch is not atomic and
aborts across entries.  When entry `e` raises, the writes that already
completed — all writes of the preceding entries and any write of `e`
issued before the failing one — are exactly the effects of the call
(nothing is rolled back), no write of any later entry is attempted, and
the batch reports the single error entry. -/
theorem C10_fail_fast_no_rollback (env : Env) (pre post : List PersistEntry)
    (e : PersistEntry) (msg : String)
    (hpre : ∀ x ∈ pre, (runEntry env x).2 = none)
    (he : (runEntry env e).2 = some msg) :
    (persist_flow env (pre ++ e :: post)).1
        = pre.flatMap (fun x => (runEntry env x).1) ++ (runEntry env e).1 ∧
    (persist_flow env (pre ++ e :: post)).2.errorEntries.length = 1 := by
  have h := runEntries_fail_at env pre e post msg hpre he
  constructor
  · simp [persist_flow, h]
  · simp [persist_flow, h]

def entryC10good : PersistEntry :=
  { entityPropertyReference :=
      { entityId := "e10", componentName := none, propertyName := "pGood" }
    propertyValues := [{ booleanValue := true, time := "2024-06-01T00:00:00+00:00" }]
    entryId := some "c10-1" }

def entryC10bad : PersistEntry :=
  { entityPropertyReference :=
      { entityId := "e10", componentName := none, propertyName := "pBad" }
    propertyValues := [{ booleanValue := false, time := "2024-06-01T00:00:01+00:00" }]
    entryId := some "c10-2" }

def entryC10after : PersistEntry :=
  { entityPropertyReference :=
      { entityId := "e10", componentName := none, propertyName := "pAfter" }
    propertyValues := [{ booleanValue := true, time := "2024-06-01T00:00:02+00:00" }]
    entryId := some "c10-3" }

/-- An environment where only the record of property `pBad` makes the
keyed store raise. -/
def envC10 : Env :=
  { envBase with
      dynamoFails := fun ev =>
        if ev.propertyName = "pBad" then some "ClientError: ThrottlingException" else none }

/-- Claim C10, witness: a three-entry batch whose middle entry fails;
the first entry's two writes survive and nothing of the third entry is
attempted. -/
theorem C10_witness :
    (persist_flow envC10 ([entryC10good] ++ entryC10bad :: [entryC10after])).1
        = [entryC10good].flatMap (fun x => (runEntry envC10 x).1)
            ++ (runEntry envC10 entryC10bad).1 ∧
    (persist_flow envC10 ([entryC10good] ++ entryC10bad :: [entryC10after])).2.errorEntries.length
      = 1 :=
  C10_fail_fast_no_rollback envC10 [entryC10good] [entryC10after] entryC10bad
    "ClientError: ThrottlingException" (by decide) (by decide)

end IotLambda
